import Mathlib

/-!
Shallow embedding of the real-time object-detection system
(src/config.py, src/camera_handler.py, src/detector.py, src/main.py)
and verification of the frozen claims about it.

Conventions of the embedding:
* Python floats for timestamps and rates are modelled as rationals (ℚ).
* A numpy frame is modelled by its identity (`data`), a flag recording
  whether the buffer came from `.copy()` (`fromCopy`), and the list of
  overlays drawn onto it so far (`overlays`); OpenCV drawing calls that
  matter only for composition (putText for FPS / object count,
  cv2.circle for the recording indicator) append an overlay marker.
* Fallible external calls (camera read, YOLO inference, writer write,
  keyboard poll) are inputs of each loop tick (`TickEnv`), so the
  single-threaded session loop of `ObjectDetectionSystem.run` becomes a
  fold over a finite trace of tick environments.
* Exceptions are modelled by explicit exit reasons: the whole loop body
  sits in one `try`, so any exception ends the loop and falls through to
  the `finally: self.cleanup()` block.
-/

namespace ODS

namespace Config

/-- src/config.py: `CAMERA_FPS = 30` (requested capture rate). -/
def CAMERA_FPS : ℕ := 30

/-- src/config.py: `CAMERA_WIDTH = 640`. -/
def CAMERA_WIDTH : ℕ := 640

/-- src/config.py: `CAMERA_HEIGHT = 480`. -/
def CAMERA_HEIGHT : ℕ := 480

/-- src/config.py: `SHOW_FPS = True`. -/
def SHOW_FPS : Bool := true

/-- src/config.py: `SHOW_CONFIDENCE = True`. -/
def SHOW_CONFIDENCE : Bool := true

/-- src/config.py: `OUTPUT_DIR = "outputs"`. -/
def OUTPUT_DIR : String := "outputs"

/-- src/config.py: `BOX_THICKNESS = 2` (outline thickness for boxes). -/
def BOX_THICKNESS : ℤ := 2

end Config

/-- One recognized object instance, as built in
`ObjectDetector.detect_objects` (src/detector.py lines 106-111):
integer corner coordinates, confidence, class id and class name. -/
structure Detection where
  x1 : ℤ
  y1 : ℤ
  x2 : ℤ
  y2 : ℤ
  confidence : ℚ
  class_id : ℕ
  class_name : String
deriving DecidableEq, Repr

/-- Overlay marks that the annotation pipeline composites onto a frame,
in the order the source draws them: detection boxes with labels
(`_draw_annotations`), the FPS text (`draw_fps`), the object-count text
(run loop, `cv2.putText` at (10,60)), and the red recording indicator
(run loop, `cv2.circle` drawn after the frame is written). -/
inductive Overlay where
  | box (d : Detection)
  | fpsText
  | objCount (n : ℕ)
  | recIndicator
deriving DecidableEq, Repr

/-- A numpy image array: `data` identifies the underlying buffer,
`fromCopy` records whether this buffer was produced by `.copy()`, and
`overlays` lists what has been drawn onto it. -/
structure Frame where
  data : ℕ
  fromCopy : Bool
  overlays : List Overlay
deriving DecidableEq, Repr

/-- `frame.copy()` (src/detector.py line 115): a fresh buffer with the
same pixel content. -/
def Frame.copy (f : Frame) : Frame :=
  { f with fromCopy := true }

/-- `ObjectDetector._draw_annotations` at overlay granularity
(src/detector.py lines 123-182): draws one box-with-label overlay per
detection onto the given frame and returns it. -/
def draw_annotations (f : Frame) (dets : List Detection) : Frame :=
  { f with overlays := f.overlays ++ dets.map Overlay.box }

/-- `ObjectDetector.detect_objects` (src/detector.py lines 71-121).
The YOLO model is `Option Unit` (`self.model`, possibly `None`); the
inference call's outcome is an input: `Except.error ()` when the
backend raises, `Except.ok dets` when it returns detections.
* `model = none`: return the input frame itself and `[]` (lines 81-82).
* inference raises: the `except` clause prints the error and returns
  the plain input frame and `[]` (lines 119-121).
* inference succeeds: annotations are drawn on `frame.copy()` and the
  detections are returned (lines 114-117). -/
def detect_objects (model : Option Unit) (frame : Frame)
    (inference : Except Unit (List Detection)) : Frame × List Detection :=
  match model with
  | none => (frame, [])
  | some _ =>
    match inference with
    | Except.error _ => (frame, [])
    | Except.ok dets => (draw_annotations frame.copy dets, dets)

/-- `ObjectDetector` FPS bookkeeping (src/detector.py lines 40-42):
`self.fps`, `self.frame_count`, `self.start_time`. -/
structure FPSState where
  fps : ℚ
  frame_count : ℕ
  start_time : ℚ
deriving DecidableEq, Repr

/-- `ObjectDetector.calculate_fps` (src/detector.py lines 184-194).
The two `time.time()` calls in the body are the inputs `t1` (used for
`elapsed_time`) and `t2` (stored as the new `start_time` when the
window closes). Returns the new state and the returned `self.fps`. -/
def calculate_fps (st : FPSState) (t1 t2 : ℚ) : FPSState × ℚ :=
  let fc := st.frame_count + 1
  let elapsed := t1 - st.start_time
  if elapsed > 1 then
    let f := (fc : ℚ) / elapsed
    ({ fps := f, frame_count := 0, start_time := t2 }, f)
  else
    ({ st with frame_count := fc }, st.fps)

/-- `ObjectDetector.draw_fps` (src/detector.py lines 196-219): calls
`calculate_fps` and overlays the FPS text on the frame. -/
def draw_fps (st : FPSState) (f : Frame) (t1 t2 : ℚ) : FPSState × Frame :=
  let r := calculate_fps st t1 t2
  (r.1, { f with overlays := f.overlays ++ [Overlay.fpsText] })

/-- The underlying `cv2.VideoCapture` object held by `CameraHandler`:
the FPS value the device reports for `CAP_PROP_FPS` (the negotiated
rate printed by `_initialize_camera`), whether `isOpened()` is true,
and how many times `.release()` has been invoked on this handle. -/
structure Cap where
  deviceFps : ℕ
  isOpenedFlag : Bool
  releasedCount : ℕ
deriving DecidableEq, Repr

/-- `CameraHandler` state (src/camera_handler.py lines 32-35):
`self.cap` (the capture object or `None`) and `self.is_opened`. -/
structure CamState where
  cap : Option Cap
  is_opened : Bool
deriving DecidableEq, Repr

/-- `CameraHandler.release` (src/camera_handler.py lines 100-105):
if `self.cap is not None`, call `self.cap.release()` (which closes the
device and is counted in `releasedCount`) and set `self.is_opened`
to `False`. Note the source never sets `self.cap = None`. -/
def CameraHandler.release (s : CamState) : CamState :=
  match s.cap with
  | none => s
  | some c =>
    { cap := some { c with isOpenedFlag := false,
                           releasedCount := c.releasedCount + 1 },
      is_opened := false }

/-- `CameraHandler.is_available` (src/camera_handler.py lines 132-134):
`self.is_opened and self.cap is not None and self.cap.isOpened()`. -/
def CameraHandler.is_available (s : CamState) : Bool :=
  s.is_opened && (match s.cap with
                  | none => false
                  | some c => c.isOpenedFlag)

/-- `get_camera_info` (src/camera_handler.py lines 119-130), restricted
to its `fps` entry: `none` models the empty dict returned when the
camera is not open, otherwise `int(self.cap.get(cv2.CAP_PROP_FPS))`,
the FPS actually negotiated with the device. -/
def get_camera_info_fps (s : CamState) : Option ℕ :=
  match s.cap with
  | none => none
  | some c => if s.is_opened then some c.deviceFps else none

/-- Parameters passed to `cv2.VideoWriter(...)` when recording starts
(src/main.py lines 85-92). -/
structure WriterParams where
  filename : String
  fourcc : String
  fps : ℕ
  size : ℕ × ℕ
deriving DecidableEq, Repr

/-- `ObjectDetectionSystem._toggle_recording` (src/main.py lines
81-98). `cam` is `self.camera` (in scope via `self`, though the method
never reads it); `writer` is `self.video_writer`; `timestamp` is
`datetime.now().strftime` of the fixed pattern; `frameW`/`frameH` are
`frame.shape[1]`/`frame.shape[0]` of the annotated frame. Returns the
new `self.video_writer`: starts a writer when currently `None`
(with `fps = Config.CAMERA_FPS`), releases it otherwise. -/
def toggle_recording (_cam : CamState) (writer : Option WriterParams)
    (timestamp : String) (frameW frameH : ℕ) : Option WriterParams :=
  match writer with
  | none =>
    some { filename := Config.OUTPUT_DIR ++ "/recording_" ++ timestamp ++ ".mp4",
           fourcc := "mp4v",
           fps := Config.CAMERA_FPS,
           size := (frameW, frameH) }
  | some _ => none

/-- Keys the run loop dispatches on (src/main.py lines 164-174). -/
inductive Key where
  | q
  | esc
  | s
  | r
  | i
  | other
deriving DecidableEq, Repr

/-- The external events of one iteration of the `while` loop in
`ObjectDetectionSystem.run` (src/main.py lines 124-174):
the camera read result, whether a reconnect attempt (if needed this
tick) would succeed, the YOLO inference outcome, whether
`video_writer.write` raises this tick, the two `time.time()` samples
taken inside `calculate_fps`, and the polled key. -/
structure TickEnv where
  readFrame : Option Frame
  reconnectOk : Bool
  inference : Except Unit (List Detection)
  writeFault : Bool
  t1 : ℚ
  t2 : ℚ
  key : Key
deriving Repr

/-- Mutable state of `ObjectDetectionSystem` observed by the run loop:
the detector's model and FPS state, whether `self.video_writer` is
open, the frames written to the video writer and the snapshots saved
by `_save_frame`, the number of `camera.reconnect()` calls made, and
whether the camera is currently open. -/
structure LoopState where
  model : Option Unit
  fpsState : FPSState
  writerOpen : Bool
  recorded : List Frame
  saved : List Frame
  reconnectAttempts : ℕ
  cameraOpen : Bool
deriving DecidableEq, Repr

/-- How the session loop leaves (or fails to leave) an iteration:
`quit` for the q/ESC `break`, `reconnectFailed` for the `break` after
a failed reconnect, `exception` for an exception propagating out of
the loop body into the `except Exception` handler. -/
inductive ExitReason where
  | quit
  | reconnectFailed
  | exception
deriving DecidableEq, Repr

/-- Outcome of one loop iteration: continue looping or leave the loop. -/
inductive StepOut where
  | cont (s : LoopState)
  | exit (s : LoopState) (r : ExitReason)
deriving DecidableEq, Repr

/-- The state carried out of an iteration, whichever way it ended. -/
def StepOut.state : StepOut → LoopState
  | StepOut.cont s => s
  | StepOut.exit s _ => s

/-- Object-count overlay: the `cv2.putText` call at src/main.py
lines 144-152 composited onto the annotated frame. -/
def drawObjCount (f : Frame) (n : ℕ) : Frame :=
  { f with overlays := f.overlays ++ [Overlay.objCount n] }

/-- Recording indicator: the `cv2.circle` call at src/main.py line 158,
drawn in place on the annotated frame. -/
def drawRecIndicator (f : Frame) : Frame :=
  { f with overlays := f.overlays ++ [Overlay.recIndicator] }

/-- Keyboard dispatch at the end of an iteration (src/main.py lines
164-174): q/ESC breaks the loop; `s` saves the (current) annotated
frame; `r` toggles the writer; `i` prints info only. -/
def handleKey (st : LoopState) (annotated : Frame) (k : Key) : StepOut :=
  match k with
  | Key.q => StepOut.exit st ExitReason.quit
  | Key.esc => StepOut.exit st ExitReason.quit
  | Key.s => StepOut.cont { st with saved := st.saved ++ [annotated] }
  | Key.r => StepOut.cont { st with writerOpen := !st.writerOpen }
  | Key.i => StepOut.cont st
  | Key.other => StepOut.cont st

/-- One iteration of the `while self.is_running` loop
(src/main.py lines 124-174), in source order:
1. `camera.read_frame()`; on failure attempt `camera.reconnect()`
   once — `continue` if it succeeds, `break` if not (lines 126-133);
2. `detector.detect_objects(frame)` (line 136);
3. `draw_fps` when `Config.SHOW_FPS` (lines 139-140);
4. object-count `putText` (lines 143-152);
5. if the writer is open, `video_writer.write(annotated_frame)` —
   an error here is an exception leaving the loop body — then the
   recording indicator is drawn (lines 155-158);
6. `imshow`, then keyboard dispatch (lines 161-174). -/
def step (st : LoopState) (e : TickEnv) : StepOut :=
  match e.readFrame with
  | none =>
    if e.reconnectOk then
      StepOut.cont { st with reconnectAttempts := st.reconnectAttempts + 1,
                             cameraOpen := true }
    else
      StepOut.exit { st with reconnectAttempts := st.reconnectAttempts + 1,
                             cameraOpen := false }
        ExitReason.reconnectFailed
  | some frame =>
    let dr := detect_objects st.model frame e.inference
    let fr := if Config.SHOW_FPS then draw_fps st.fpsState dr.1 e.t1 e.t2
              else (st.fpsState, dr.1)
    let annotated := drawObjCount fr.2 dr.2.length
    let st1 := { st with fpsState := fr.1 }
    if st1.writerOpen then
      if e.writeFault then
        StepOut.exit st1 ExitReason.exception
      else
        let st2 := { st1 with recorded := st1.recorded ++ [annotated] }
        handleKey st2 (drawRecIndicator annotated) e.key
    else
      handleKey st1 annotated e.key

/-- The `while` loop of `ObjectDetectionSystem.run` over a finite trace
of tick environments: folds `step` until an exit, returning the state
at the loop's end and the reason it ended (`none` when the trace ran
out with the loop still going). -/
def runLoop (st : LoopState) (envs : List TickEnv) :
    LoopState × Option ExitReason :=
  match envs with
  | [] => (st, none)
  | e :: rest =>
    match step st e with
    | StepOut.cont st' => runLoop st' rest
    | StepOut.exit st' r => (st', some r)

/-- `ObjectDetectionSystem.cleanup` (src/main.py lines 185-196):
release the video writer if open, release the camera, destroy the
windows. -/
def cleanup (st : LoopState) : LoopState :=
  { st with writerOpen := false, cameraOpen := false }

/-- `ObjectDetectionSystem.run`'s `try/except/finally` body after the
availability check (src/main.py lines 123-183): run the loop, catch
any exception (already reified as `ExitReason.exception`), and always
run `cleanup`. -/
def run (st : LoopState) (envs : List TickEnv) :
    LoopState × Option ExitReason :=
  let r := runLoop st envs
  (cleanup r.1, r.2)

/-- What `main` (src/main.py lines 199-227) did before returning. -/
inductive MainOutcome where
  | listedCameras
  | cameraUnavailable
  | sessionEnded (r : Option ExitReason)
deriving DecidableEq, Repr

/-- `ObjectDetectionSystem.run` including its guard (src/main.py lines
114-118): if `camera.is_available()` is false, print an error and
return without entering the loop; otherwise run the loop with cleanup.
Every path returns normally (the loop body's exceptions are caught). -/
def systemRun (cam : CamState) (st : LoopState) (envs : List TickEnv) :
    MainOutcome :=
  if CameraHandler.is_available cam then
    MainOutcome.sessionEnded (run st envs).2
  else
    MainOutcome.cameraUnavailable

/-- `main` (src/main.py lines 199-227) as a function returning
`Except`: `Except.error` would model an exception escaping `main`
(none of the modelled paths produces one — `--list-cameras` returns
after printing, and `systemRun` always returns), and `sys.exit` is
never called. -/
def pyMain (listCameras : Bool) (cam : CamState) (st : LoopState)
    (envs : List TickEnv) : Except String MainOutcome :=
  if listCameras then
    Except.ok MainOutcome.listedCameras
  else
    Except.ok (systemRun cam st envs)

/-- Exit code of the Python process: 0 when `main` returns normally
(no `sys.exit` call anywhere in src/main.py), 1 when an exception
escapes `main`. -/
def processExitCode (r : Except String MainOutcome) : ℕ :=
  match r with
  | Except.ok _ => 0
  | Except.error _ => 1

/-- Pixel dimensions of a frame (`frame.shape[1]`, `frame.shape[0]`). -/
structure FrameDims where
  width : ℕ
  height : ℕ
deriving DecidableEq, Repr

/-- A pixel coordinate lies inside the frame's buffer. -/
def inFrame (dims : FrameDims) (p : ℤ × ℤ) : Prop :=
  0 ≤ p.1 ∧ p.1 < (dims.width : ℤ) ∧ 0 ≤ p.2 ∧ p.2 < (dims.height : ℤ)

instance (dims : FrameDims) (p : ℤ × ℤ) : Decidable (inFrame dims p) :=
  inferInstanceAs (Decidable (_ ∧ _ ∧ _ ∧ _))

/-- A valid detection in the sense of the data-model invariant: corner
order respected and both corners inside the frame. -/
def validDetection (dims : FrameDims) (d : Detection) : Prop :=
  0 ≤ d.x1 ∧ d.x1 ≤ d.x2 ∧ d.x2 < (dims.width : ℤ) ∧
  0 ≤ d.y1 ∧ d.y1 ≤ d.y2 ∧ d.y2 < (dims.height : ℤ)

instance (dims : FrameDims) (d : Detection) :
    Decidable (validDetection dims d) :=
  inferInstanceAs (Decidable (_ ∧ _ ∧ _ ∧ _ ∧ _ ∧ _))

/-- Result of `cv2.getTextSize` for a label (src/detector.py lines
155-160): `(label_width, label_height), baseline`. -/
structure TextSize where
  width : ℕ
  height : ℕ
  baseline : ℕ
deriving DecidableEq, Repr

/-- Region requested by the box outline
`cv2.rectangle(frame, (x1,y1), (x2,y2), BOX_COLOR, BOX_THICKNESS)`
(src/detector.py lines 140-146): the border band of the rectangle;
an over-approximation by the rectangle dilated by the thickness. -/
def boxOutlineRequested (d : Detection) (p : ℤ × ℤ) : Prop :=
  d.x1 - Config.BOX_THICKNESS ≤ p.1 ∧ p.1 ≤ d.x2 + Config.BOX_THICKNESS ∧
  d.y1 - Config.BOX_THICKNESS ≤ p.2 ∧ p.2 ≤ d.y2 + Config.BOX_THICKNESS

instance (d : Detection) (p : ℤ × ℤ) :
    Decidable (boxOutlineRequested d p) :=
  inferInstanceAs (Decidable (_ ∧ _ ∧ _ ∧ _))

/-- Region requested by the filled label background
`cv2.rectangle(frame, (x1, y1 - label_height - baseline - 5),
(x1 + label_width, y1), TEXT_BG_COLOR, -1)` (src/detector.py lines
163-169). When the box is near the top edge the requested top
`y1 - label_height - baseline - 5` is negative, i.e. off-frame. -/
def labelBgRequested (ts : TextSize) (d : Detection) (p : ℤ × ℤ) : Prop :=
  d.x1 ≤ p.1 ∧ p.1 ≤ d.x1 + (ts.width : ℤ) ∧
  d.y1 - (ts.height : ℤ) - (ts.baseline : ℤ) - 5 ≤ p.2 ∧ p.2 ≤ d.y1

instance (ts : TextSize) (d : Detection) (p : ℤ × ℤ) :
    Decidable (labelBgRequested ts d p) :=
  inferInstanceAs (Decidable (_ ∧ _ ∧ _ ∧ _))

/-- Region requested by the label text
`cv2.putText(frame, label, (x1, y1 - baseline - 5), ...)`
(src/detector.py lines 172-180): glyphs extend from the baseline
origin up by the text height and down by the baseline descent. -/
def labelTextRequested (ts : TextSize) (d : Detection) (p : ℤ × ℤ) : Prop :=
  d.x1 ≤ p.1 ∧ p.1 ≤ d.x1 + (ts.width : ℤ) ∧
  d.y1 - (ts.baseline : ℤ) - 5 - (ts.height : ℤ) ≤ p.2 ∧
  p.2 ≤ d.y1 - 5

instance (ts : TextSize) (d : Detection) (p : ℤ × ℤ) :
    Decidable (labelTextRequested ts d p) :=
  inferInstanceAs (Decidable (_ ∧ _ ∧ _ ∧ _))

/-- The set of pixels `_draw_annotations` writes (src/detector.py lines
123-182), at pixel granularity. OpenCV's drawing primitives
(`cv2.rectangle`, `cv2.putText`) clip internally to the image buffer:
a call whose requested region extends past the image writes only the
pixels of the intersection with the image. So a pixel is written iff
it lies in the frame's buffer and in the requested region of the box
outline, label background, or label text of some detection.
`textSize` is the `cv2.getTextSize` result for each detection's label. -/
def drawAnnotationsWrites (dims : FrameDims) (textSize : Detection → TextSize)
    (dets : List Detection) (p : ℤ × ℤ) : Prop :=
  inFrame dims p ∧
  ∃ d ∈ dets,
    boxOutlineRequested d p ∨ labelBgRequested (textSize d) d p ∨
    labelTextRequested (textSize d) d p

instance (dims : FrameDims) (textSize : Detection → TextSize)
    (dets : List Detection) (p : ℤ × ℤ) :
    Decidable (drawAnnotationsWrites dims textSize dets p) :=
  inferInstanceAs (Decidable (_ ∧ _))

/-- Whether a loop iteration continued (did not break or raise). -/
def StepOut.isCont : StepOut → Bool
  | StepOut.cont _ => true
  | StepOut.exit _ _ => false

/-! Concrete inputs used to instantiate the theorems below. -/

/-- A plain captured frame with no overlays. -/
def frame0 : Frame :=
  { data := 0, fromCopy := false, overlays := [] }

/-- A sample detection well inside a 640x480 frame. -/
def det0 : Detection :=
  { x1 := 10, y1 := 10, x2 := 20, y2 := 20,
    confidence := 1, class_id := 0, class_name := "person" }

/-- Loop state with an open video writer (recording active). -/
def recSt0 : LoopState :=
  { model := some (),
    fpsState := { fps := 0, frame_count := 0, start_time := 0 },
    writerOpen := true, recorded := [], saved := [],
    reconnectAttempts := 0, cameraOpen := true }

/-- Loop state with the video writer closed (recording idle). -/
def idleSt0 : LoopState :=
  { model := some (),
    fpsState := { fps := 0, frame_count := 0, start_time := 0 },
    writerOpen := false, recorded := [], saved := [],
    reconnectAttempts := 0, cameraOpen := true }

/-- A tick on which `video_writer.write` raises. -/
def faultEnv : TickEnv :=
  { readFrame := some frame0, reconnectOk := true,
    inference := Except.ok [det0], writeFault := true,
    t1 := 0, t2 := 0, key := Key.other }

/-- A normal tick: read succeeds, one detection, write succeeds. -/
def okEnv : TickEnv :=
  { readFrame := some frame0, reconnectOk := true,
    inference := Except.ok [det0], writeFault := false,
    t1 := 0, t2 := 0, key := Key.other }

/-- A tick on which the camera read fails and reconnection succeeds. -/
def reconEnv : TickEnv :=
  { readFrame := none, reconnectOk := true,
    inference := Except.ok [], writeFault := false,
    t1 := 0, t2 := 0, key := Key.other }

/-- A tick on which the YOLO inference call raises. -/
def errEnv : TickEnv :=
  { readFrame := some frame0, reconnectOk := true,
    inference := Except.error (), writeFault := false,
    t1 := 0, t2 := 0, key := Key.other }

/-- A 640x480 frame, the configured capture resolution. -/
def dims640 : FrameDims :=
  { width := Config.CAMERA_WIDTH, height := Config.CAMERA_HEIGHT }

/-- A plausible `cv2.getTextSize` result for a short label. -/
def topTextSize : TextSize :=
  { width := 40, height := 10, baseline := 3 }

/-- A valid detection whose box touches the top edge of the frame, so
the label background requested above the box extends off-frame. -/
def nearTopDet : Detection :=
  { x1 := 5, y1 := 3, x2 := 100, y2 := 50,
    confidence := 1, class_id := 0, class_name := "person" }

/-- An open camera whose negotiated `CAP_PROP_FPS` is 30. -/
def camOpen0 : CamState :=
  { cap := some { deviceFps := 30, isOpenedFlag := true, releasedCount := 0 },
    is_opened := true }

/-- An open camera whose negotiated `CAP_PROP_FPS` is 25, differing
from the requested `Config.CAMERA_FPS = 30`. -/
def cam25 : CamState :=
  { cap := some { deviceFps := 25, isOpenedFlag := true, releasedCount := 0 },
    is_opened := true }

/-- A camera whose device failed to open at startup. -/
def camUnavail : CamState :=
  { cap := some { deviceFps := 30, isOpenedFlag := false, releasedCount := 0 },
    is_opened := false }

/-! Theorems settling the claims. -/

/-- Claim C8 (confirmed): `calculate_fps` increments the frame counter
on every call; when the elapsed time since the window start exceeds
1.0 second it returns `frame_count / elapsed` (with the counter
already incremented), resets the counter to 0 and the window start to
now; otherwise it returns the previously computed FPS unchanged — so
within one measurement window the reported value never changes. -/
theorem C8_calculate_fps_window (st : FPSState) (t1 t2 : ℚ) :
    (t1 - st.start_time > 1 →
      calculate_fps st t1 t2 =
        ({ fps := ((st.frame_count + 1 : ℕ) : ℚ) / (t1 - st.start_time),
           frame_count := 0, start_time := t2 },
         ((st.frame_count + 1 : ℕ) : ℚ) / (t1 - st.start_time))) ∧
    (¬ t1 - st.start_time > 1 →
      calculate_fps st t1 t2 =
        ({ st with frame_count := st.frame_count + 1 }, st.fps)) := by
  constructor <;> intro h <;> simp [calculate_fps, h]

/-- Witness for C8 at a concrete closed window: starting from a fresh
state, a call at time 2 closes the window and reports 1/2 FPS. -/
theorem C8_calculate_fps_window_witness :
    calculate_fps { fps := 0, frame_count := 0, start_time := 0 } 2 2 =
      ({ fps := 1/2, frame_count := 0, start_time := 2 }, 1/2) := by
  have h :=
    (C8_calculate_fps_window { fps := 0, frame_count := 0, start_time := 0 } 2 2).1
      (by norm_num)
  norm_num at h
  exact h

/-- Claim C10 (confirmed): when the detector's model is `None`,
`detect_objects` returns the input frame value itself (no `.copy()` is
taken, so the caller receives an alias of its own frame) together with
an empty detection list, for every inference outcome, and never
raises (the function is total). -/
theorem C10_model_none_returns_alias (f : Frame)
    (r : Except Unit (List Detection)) :
    detect_objects none f r = (f, []) := rfl

/-- Claim C9 (confirmed): when the detection backend raises,
`detect_objects` catches the exception and returns the plain input
frame with an empty detection list; and a tick whose inference fails
(with a successful read, no write fault and no quit key) continues the
session loop rather than terminating it. -/
theorem C9_inference_error_degrades (f : Frame) :
    detect_objects (some ()) f (Except.error ()) = (f, []) ∧
    ∀ (st : LoopState) (e : TickEnv) (frame : Frame),
      e.readFrame = some frame → e.inference = Except.error () →
      e.writeFault = false → e.key = Key.other →
      (step st e).isCont = true := by
  refine ⟨rfl, ?_⟩
  intro st e frame hr hi hw hk
  cases hmod : st.model <;> cases hwo : st.writerOpen <;>
    simp [step, hr, hi, hw, hk, hmod, hwo, detect_objects, draw_fps,
          drawObjCount, handleKey, StepOut.isCont, Config.SHOW_FPS]

/-- Witness for C9: a concrete failing-inference tick in a recording
session returns the plain frame and continues the loop. -/
theorem C9_inference_error_degrades_witness :
    detect_objects (some ()) frame0 (Except.error ()) = (frame0, []) ∧
    (step recSt0 errEnv).isCont = true :=
  ⟨(C9_inference_error_degrades frame0).1,
   (C9_inference_error_degrades frame0).2 recSt0 errEnv frame0 rfl rfl rfl rfl⟩

/-- Claim C3 (confirmed): for a valid detection list, every pixel
`_draw_annotations` writes — box outlines, label backgrounds and label
text, each clipped by the OpenCV primitive to the image buffer — lies
inside the frame bounds; in particular the label background requested
above a near-top box extends off-frame but only its in-frame part is
written. -/
theorem C3_annotations_within_bounds (dims : FrameDims)
    (textSize : Detection → TextSize) (dets : List Detection) (p : ℤ × ℤ)
    (_hvalid : ∀ d ∈ dets, validDetection dims d)
    (hw : drawAnnotationsWrites dims textSize dets p) :
    inFrame dims p :=
  hw.1

/-- Witness for C3: a valid box touching the top edge requests a label
background reaching y = -15 (off-frame), the off-frame pixel (5,-3) is
indeed not written, and the written pixel (5,0) at the clipped top row
is inside the frame. -/
theorem C3_annotations_within_bounds_witness :
    (∀ d ∈ [nearTopDet], validDetection dims640 d) ∧
    labelBgRequested topTextSize nearTopDet (5, -3) ∧
    ¬ inFrame dims640 (5, -3) ∧
    drawAnnotationsWrites dims640 (fun _ => topTextSize) [nearTopDet] (5, 0) ∧
    inFrame dims640 (5, 0) :=
  ⟨by decide, by decide, by decide, by decide,
   C3_annotations_within_bounds dims640 (fun _ => topTextSize) [nearTopDet]
     (5, 0) (by decide) (by decide)⟩

/-- Claim C7 (confirmed): a failed `read_frame` triggers exactly one
`reconnect()` attempt for that read (the attempt counter grows by
exactly one and nothing else of the controller state changes): on
success the loop `continue`s to the next tick with the camera open
again — only the failed tick's frame is dropped, recorded and saved
frames are untouched — and on failure the loop `break`s, terminating
the session. -/
theorem C7_single_reconnect_per_failed_read (st : LoopState) (e : TickEnv)
    (envs : List TickEnv) (h : e.readFrame = none) :
    (e.reconnectOk = true →
      step st e = StepOut.cont
        { st with reconnectAttempts := st.reconnectAttempts + 1,
                  cameraOpen := true } ∧
      runLoop st (e :: envs) =
        runLoop { st with reconnectAttempts := st.reconnectAttempts + 1,
                          cameraOpen := true } envs) ∧
    (e.reconnectOk = false →
      runLoop st (e :: envs) =
        ({ st with reconnectAttempts := st.reconnectAttempts + 1,
                   cameraOpen := false },
         some ExitReason.reconnectFailed)) := by
  refine ⟨fun hro => ⟨?_, ?_⟩, fun hro => ?_⟩ <;>
    simp [runLoop, step, h, hro]

/-- Witness for C7: a concrete failed read with a successful reconnect
continues the loop with only the attempt counter and camera flag
updated. -/
theorem C7_single_reconnect_per_failed_read_witness :
    step idleSt0 reconEnv = StepOut.cont
      { idleSt0 with reconnectAttempts := idleSt0.reconnectAttempts + 1,
                     cameraOpen := true } ∧
    runLoop idleSt0 [reconEnv] =
      runLoop { idleSt0 with
                  reconnectAttempts := idleSt0.reconnectAttempts + 1,
                  cameraOpen := true } [] :=
  (C7_single_reconnect_per_failed_read idleSt0 reconEnv [] rfl).1 rfl

/-- Claim C1 as stated is false on the code: on a tick where the open
video writer's `write` raises, the session loop terminates (the
exception leaves the loop body), so the next tick is never processed —
the loop does not continue with recording merely stopped. -/
theorem C1_write_fault_ends_session :
    recSt0.writerOpen = true ∧ faultEnv.writeFault = true ∧
    (runLoop recSt0 [faultEnv, okEnv]).2 = some ExitReason.exception := by
  refine ⟨rfl, rfl, by decide⟩

/-- Claim C1 amended: a write fault during active recording raises out
of the loop body; the outer `except` handler logs it and the session
ends, after which `cleanup` (the `finally` block) closes the writer
and releases the camera. The write fault thus terminates the whole
session — cleanly — rather than leaving the loop running with
recording idle. -/
theorem C1_amended_write_fault_cleanup (st : LoopState) (e : TickEnv)
    (envs : List TickEnv) (frame : Frame) (hw : st.writerOpen = true)
    (hr : e.readFrame = some frame) (hf : e.writeFault = true) :
    (run st (e :: envs)).2 = some ExitReason.exception ∧
    (run st (e :: envs)).1.writerOpen = false ∧
    (run st (e :: envs)).1.cameraOpen = false := by
  have hstep : step st e =
      StepOut.exit
        { st with fpsState := (calculate_fps st.fpsState e.t1 e.t2).1 }
        ExitReason.exception := by
    simp [step, hr, hf, hw, draw_fps, Config.SHOW_FPS]
  simp [run, runLoop, hstep, cleanup]

/-- Witness for C1's amended statement at the concrete faulting tick. -/
theorem C1_amended_write_fault_cleanup_witness :
    (run recSt0 [faultEnv]).2 = some ExitReason.exception ∧
    (run recSt0 [faultEnv]).1.writerOpen = false ∧
    (run recSt0 [faultEnv]).1.cameraOpen = false :=
  C1_amended_write_fault_cleanup recSt0 faultEnv [] frame0 rfl rfl rfl

/-- Claim C2 as stated is false on the code: with the camera
unavailable at startup, `run` prints an error and returns, `main`
returns normally, and no `sys.exit` is ever called — the process exit
code is 0, not non-zero. -/
theorem C2_unavailable_camera_exits_zero :
    CameraHandler.is_available camUnavail = false ∧
    processExitCode (pyMain false camUnavail idleSt0 []) = 0 := by
  refine ⟨rfl, rfl⟩

/-- Claim C2 amended: the process exits with code 0 on every modelled
path — after a clean shutdown, after `--list-cameras`, and also when
the camera is unavailable at startup (the failure is only printed;
`main` still returns normally). -/
theorem C2_amended_exit_code_always_zero (listCameras : Bool)
    (cam : CamState) (st : LoopState) (envs : List TickEnv) :
    processExitCode (pyMain listCameras cam st envs) = 0 := by
  cases listCameras <;> simp [pyMain, processExitCode]

/-- Claim C4 as stated is false on the code: with a camera whose
negotiated FPS (`cap.get(CAP_PROP_FPS)`) is 25, toggling recording on
opens the writer at `Config.CAMERA_FPS = 30`, the requested
configuration value, not at the negotiated 25. -/
theorem C4_writer_uses_config_fps :
    get_camera_info_fps cam25 = some 25 ∧
    (toggle_recording cam25 none "20240101_000000" 640 480).map
        WriterParams.fps = some 30 ∧
    (30 : ℕ) ≠ 25 := by
  refine ⟨rfl, rfl, by decide⟩

/-- Claim C4 amended: toggling recording on names the file
`recording_<timestamp>.mp4` under the configured output directory and
opens the writer at the annotated frame's pixel dimensions, but at the
configured `Config.CAMERA_FPS` — independent of the camera state, so
in particular not at the FPS negotiated with the device. -/
theorem C4_amended_writer_params (cam : CamState) (ts : String) (w h : ℕ) :
    toggle_recording cam none ts w h =
      some { filename := Config.OUTPUT_DIR ++ "/recording_" ++ ts ++ ".mp4",
             fourcc := "mp4v", fps := Config.CAMERA_FPS, size := (w, h) } ∧
    toggle_recording cam none ts w h = toggle_recording camOpen0 none ts w h :=
  ⟨rfl, rfl⟩

/-- Claim C6 as stated is false on the code: `release()` never clears
`self.cap`, so calling it twice invokes the underlying handle's
`release()` twice (count 2), not exactly once. -/
theorem C6_release_not_exactly_once :
    (CameraHandler.release (CameraHandler.release camOpen0)).cap =
      some { deviceFps := 30, isOpenedFlag := false, releasedCount := 2 } ∧
    (CameraHandler.release (CameraHandler.release camOpen0)).cap ≠
      some { deviceFps := 30, isOpenedFlag := false, releasedCount := 1 } := by
  refine ⟨rfl, by decide⟩

/-- Claim C6 amended: `release()` is safe to call any number of times
and never errors (it is a total state update), but it is not
idempotent on the underlying handle: every call finding `self.cap`
non-`None` invokes the handle's `release()` again — two calls release
it twice — and only a state whose `cap` is `None` (which `release`
itself never produces) makes the call a no-op. -/
theorem C6_amended_release_each_call (s : CamState) (c : Cap)
    (h : s.cap = some c) :
    CameraHandler.release s =
      { cap := some { c with isOpenedFlag := false,
                             releasedCount := c.releasedCount + 1 },
        is_opened := false } ∧
    CameraHandler.release (CameraHandler.release s) =
      { cap := some { c with isOpenedFlag := false,
                             releasedCount := c.releasedCount + 2 },
        is_opened := false } ∧
    CameraHandler.release { cap := none, is_opened := s.is_opened } =
      { cap := none, is_opened := s.is_opened } := by
  refine ⟨?_, ?_, rfl⟩ <;> simp [CameraHandler.release, h]

/-- Witness for C6's amended statement on a concrete open camera. -/
theorem C6_amended_release_each_call_witness :
    CameraHandler.release camOpen0 =
      { cap := some { deviceFps := 30, isOpenedFlag := false,
                      releasedCount := 1 },
        is_opened := false } ∧
    CameraHandler.release (CameraHandler.release camOpen0) =
      { cap := some { deviceFps := 30, isOpenedFlag := false,
                      releasedCount := 2 },
        is_opened := false } ∧
    CameraHandler.release { cap := none, is_opened := camOpen0.is_opened } =
      { cap := none, is_opened := camOpen0.is_opened } :=
  C6_amended_release_each_call camOpen0
    { deviceFps := 30, isOpenedFlag := true, releasedCount := 0 } rfl

/-- Claim C5 as stated is false on the code: on a tick with recording
active, the frame forwarded to the video writer carries the detection
box, FPS and object-count overlays but not the recording indicator —
the indicator (`cv2.circle`) is drawn only after
`video_writer.write` has consumed the frame. -/
theorem C5_recorded_frame_lacks_indicator :
    recSt0.writerOpen = true ∧
    (step recSt0 okEnv).state.recorded =
      [{ data := 0, fromCopy := true,
         overlays := [Overlay.box det0, Overlay.fpsText,
                      Overlay.objCount 1] }] ∧
    Overlay.recIndicator ∉
      ([Overlay.box det0, Overlay.fpsText, Overlay.objCount 1] :
        List Overlay) := by
  refine ⟨rfl, by decide, by decide⟩

/-- Claim C5 amended: annotation completes before recording consumes
the frame — every frame written while recording is active carries the
detection boxes, the FPS overlay and the object count — but not the
recording indicator, which is drawn only after the write; a snapshot
saved later in the same tick does carry the indicator. -/
theorem C5_amended_overlay_order (st : LoopState) (e : TickEnv)
    (frame : Frame) (dets : List Detection)
    (hw : st.writerOpen = true) (hr : e.readFrame = some frame)
    (hm : st.model = some ()) (hi : e.inference = Except.ok dets)
    (hf : e.writeFault = false)
    (hclean : Overlay.recIndicator ∉ frame.overlays) :
    ∃ a : Frame,
      (step st e).state.recorded = st.recorded ++ [a] ∧
      (∀ d ∈ dets, Overlay.box d ∈ a.overlays) ∧
      Overlay.fpsText ∈ a.overlays ∧
      Overlay.objCount dets.length ∈ a.overlays ∧
      Overlay.recIndicator ∉ a.overlays ∧
      (e.key = Key.s →
        (step st e).state.saved = st.saved ++ [drawRecIndicator a] ∧
        Overlay.recIndicator ∈ (drawRecIndicator a).overlays) := by
  refine ⟨drawObjCount
      (draw_fps st.fpsState (draw_annotations frame.copy dets) e.t1 e.t2).2
      dets.length, ?_, ?_, ?_, ?_, ?_, ?_⟩
  · cases hk : e.key <;>
      simp [step, hr, hm, hi, hw, hf, hk, detect_objects, draw_fps,
            drawObjCount, handleKey, StepOut.state, Config.SHOW_FPS]
  · intro d hd
    simp [draw_fps, drawObjCount, draw_annotations, Frame.copy]
    exact Or.inr hd
  · simp [draw_fps, drawObjCount, draw_annotations, Frame.copy]
  · simp [draw_fps, drawObjCount, draw_annotations, Frame.copy]
  · simp [draw_fps, drawObjCount, draw_annotations, Frame.copy, hclean]
  · intro hk
    constructor
    · simp [step, hr, hm, hi, hw, hf, hk, detect_objects, draw_fps,
            drawObjCount, handleKey, StepOut.state, Config.SHOW_FPS,
            drawRecIndicator]
    · simp [drawRecIndicator]

/-- Witness for C5's amended statement on a concrete recording tick. -/
theorem C5_amended_overlay_order_witness :
    ∃ a : Frame,
      (step recSt0 okEnv).state.recorded = recSt0.recorded ++ [a] ∧
      (∀ d ∈ [det0], Overlay.box d ∈ a.overlays) ∧
      Overlay.fpsText ∈ a.overlays ∧
      Overlay.objCount [det0].length ∈ a.overlays ∧
      Overlay.recIndicator ∉ a.overlays ∧
      (okEnv.key = Key.s →
        (step recSt0 okEnv).state.saved =
          recSt0.saved ++ [drawRecIndicator a] ∧
        Overlay.recIndicator ∈ (drawRecIndicator a).overlays) :=
  C5_amended_overlay_order recSt0 okEnv frame0 [det0]
    rfl rfl rfl rfl rfl (by decide)

end ODS
